import Mathlib

set_option maxRecDepth 100000

/-!
Verification of the data module of the Indian Stock Market Analysis
Dashboard (`data.py`, `config.py`).

The Python module holds hard-coded pandas DataFrames, a scenario table,
and a handful of arithmetic functions (Nifty level projection, CAGR
metrics, CSV export, validation).  We embed the tables as lists of
typed cells, floats as exact rationals, dictionary lookups as `Option`,
and Python exceptions as the fallback branches the source installs for
them (`try/except` blocks, missing-key errors).
-/

/-- A pandas cell: an integer, a float (embedded as an exact rational),
or a string.  The four hard-coded tables only contain these three
dtypes. -/
inductive Cell where
  | i (n : ℤ)
  | f (q : ℚ)
  | s (v : String)
deriving DecidableEq, Repr

/-- A pandas DataFrame: ordered column names and row-major cells. -/
structure Frame where
  columns : List String
  rows : List (List Cell)
deriving DecidableEq, Repr

/-- Build a frame from the column-major dict-of-lists literal used by
the `pd.DataFrame({...})` calls in `data.py`. -/
def Frame.ofCols (cols : List (String × List Cell)) : Frame :=
  { columns := cols.map Prod.fst
    rows := (cols.map Prod.snd).transpose }

/-- Constant `BASE_EPS_FY24` from `data.py` (the one `calculate_nifty_levels`
uses; `config.py` separately defines 920, never read by `data.py`). -/
def BASE_EPS_FY24 : ℚ := 2150

/-- Function `get_five_year_data` from `data.py`. -/
def get_five_year_data : Frame :=
  Frame.ofCols
    [("Fiscal Year", [.s "FY2021", .s "FY2022", .s "FY2023", .s "FY2024", .s "FY2025 YTD"]),
     ("Revenue Growth (%)", [.f 10.5, .f 15.4, .f 13.8, .f 10.7, .f 6.9]),
     ("EBITDA Growth (%)", [.f 11.2, .f 22.8, .f 18.5, .f 14.3, .f 2.6]),
     ("PAT Growth (%)", [.f 8.3, .f 25.7, .f 22.1, .f 16.8, .f 4.6]),
     ("EBITDA Margin (%)", [.f 32.1, .f 33.5, .f 33.2, .f 33.0, .f 33.1]),
     ("PAT Margin (%)", [.f 9.8, .f 10.4, .f 10.6, .f 10.5, .f 10.7])]

/-- Function `get_quarterly_data` from `data.py`. -/
def get_quarterly_data : Frame :=
  Frame.ofCols
    [("Quarter", [.s "Q1FY25", .s "Q2FY25", .s "Q3FY25"]),
     ("Revenue Growth (%)", [.f 9.6, .f 6.6, .f 4.5]),
     ("EBITDA Growth (%)", [.f 9.4, .f 1.3, .f 6.9]),
     ("PAT Growth (%)", [.f 0.8, .f (-1.0), .f 9.5])]

/-- Function `get_sector_data` from `data.py`.  The weight column is a Python
int column. -/
def get_sector_data : Frame :=
  Frame.ofCols
    [("Sector",
      [.s "Financials", .s "Energy", .s "IT", .s "Industrials", .s "Materials",
       .s "Consumer Disc.", .s "Healthcare", .s "Consumer Staples", .s "Utilities", .s "Telecom"]),
     ("Revenue Growth FY25 (%)",
      [.f 12.3, .f 1.4, .f 7.0, .f 10.6, .f 1.7, .f 10.5, .f 7.6, .f 10.6, .f 7.5, .f 8.0]),
     ("Profit Growth FY25 (%)",
      [.f 17.3, .f (-35.4), .f 8.7, .f 25.7, .f (-1.4), .f 6.6, .f 32.9, .f 6.1, .f (-6.9), .f 95.9]),
     ("Weight in Nifty (%)",
      [.i 35, .i 30, .i 9, .i 5, .i 11, .i 9, .i 3, .i 3, .i 3, .i 2]),
     ("Status",
      [.s "🟡 SLOWING", .s "🔴 CRISIS", .s "🟢 STABILIZING", .s "🟢 STRONG",
       .s "⚠️ MIXED", .s "⚠️ WEAKENING", .s "🟢 STRONG", .s "⚠️ MIXED",
       .s "⚠️ DECLINING", .s "🟢 EXCEPTIONAL"])]

/-- Function `get_downgrade_data` from `data.py`. -/
def get_downgrade_data : Frame :=
  Frame.ofCols
    [("Date",
      [.s "Sep 30, 2024", .s "Oct 31, 2024", .s "Nov 30, 2024", .s "Dec 31, 2024",
       .s "Jan 31, 2025", .s "Feb 21, 2025"]),
     ("Period", [.s "Sep-24", .s "Oct-24", .s "Nov-24", .s "Dec-24", .s "Jan-25", .s "Feb-25"]),
     ("FY25 Profit Growth (%)", [.f 9.8, .f 8.2, .f 5.8, .f 3.2, .f 4.9, .f 3.2])]

/-- One scenario dictionary from `get_scenarios`.  The six numeric
assumption keys are `Option`-valued because `calculate_nifty_levels`
accesses them with `data['key']`, which raises `KeyError` on an input
dictionary that lacks the key; `get_scenarios` itself populates all of
them. -/
structure ScenarioData where
  description : String
  fy25_earnings : Option ℚ
  fy26_earnings : Option ℚ
  fy27_earnings : Option ℚ
  fy25_pe : Option ℚ
  fy26_pe : Option ℚ
  fy27_pe : Option ℚ
  color : String
  probability : ℚ
deriving DecidableEq, Repr

/-- Function `get_scenarios` from `data.py` (Python dicts preserve insertion
order, so an association list). -/
def get_scenarios : List (String × ScenarioData) :=
  [("Base Case (50%)",
    { description := "Margin Resilience, Slow Revenue"
      fy25_earnings := some 5.5, fy26_earnings := some 11.0, fy27_earnings := some 12.5
      fy25_pe := some 25.0, fy26_pe := some 24.5, fy27_pe := some 24.0
      color := "#FFA500", probability := 0.50 }),
   ("Bear Case (25%)",
    { description := "Margin Compression, Input Cost Spike"
      fy25_earnings := some 2.0, fy26_earnings := some 5.0, fy27_earnings := some 7.5
      fy25_pe := some 23.0, fy26_pe := some 22.0, fy27_pe := some 21.5
      color := "#FF0000", probability := 0.25 }),
   ("Bull Case (25%)",
    { description := "Revenue Recovery + Margin Stability"
      fy25_earnings := some 9.0, fy26_earnings := some 14.0, fy27_earnings := some 15.5
      fy25_pe := some 25.5, fy26_pe := some 26.0, fy27_pe := some 26.5
      color := "#00AA00", probability := 0.25 })]

namespace Config

/-- Constant `SCENARIO_WEIGHTS` from `config.py`. -/
def SCENARIO_WEIGHTS : List (String × ℚ) :=
  [("Base Case (50%)", 0.50), ("Bear Case (25%)", 0.25), ("Bull Case (25%)", 0.25)]

end Config

/-- The body of the `for scenario, data in scenarios.items()` loop in
`calculate_nifty_levels`: compound EPS forward from `BASE_EPS_FY24`,
multiply by each year's P/E, store divided by 1000.  Any missing key
raises inside the `try`, and the `except` branch stores `[0, 0, 0]`. -/
def nifty_levels_for (data : ScenarioData) : List ℚ :=
  match data.fy25_earnings, data.fy26_earnings, data.fy27_earnings,
        data.fy25_pe, data.fy26_pe, data.fy27_pe with
  | some g1, some g2, some g3, some p1, some p2, some p3 =>
    let fy25_eps := BASE_EPS_FY24 * (1 + g1 / 100)
    let fy26_eps := fy25_eps * (1 + g2 / 100)
    let fy27_eps := fy26_eps * (1 + g3 / 100)
    [fy25_eps * p1 / 1000, fy26_eps * p2 / 1000, fy27_eps * p3 / 1000]
  | _, _, _, _, _, _ => [0, 0, 0]

/-- Function `calculate_nifty_levels` from `data.py`: the loop over the scenario
dictionary, building the result dictionary in insertion order. -/
def calculate_nifty_levels : List (String × ScenarioData) → List (String × List ℚ)
  | [] => []
  | (scenario, data) :: rest =>
    (scenario, nifty_levels_for data) :: calculate_nifty_levels rest

/-- True when one of the six keys `calculate_nifty_levels` reads is
absent from the scenario dictionary. -/
def scenario_missing_key (data : ScenarioData) : Bool :=
  data.fy25_earnings.isNone || data.fy26_earnings.isNone || data.fy27_earnings.isNone ||
  data.fy25_pe.isNone || data.fy26_pe.isNone || data.fy27_pe.isNone

/-- Numeric value of a cell, as pandas uses it in arithmetic and
comparisons (`cellQ` of a string cell is irrelevant below: it is only
applied to numeric columns). -/
def cellQ : Cell → ℚ
  | .i n => (n : ℚ)
  | .f q => q
  | .s _ => 0

/-- Numeric value of a cell, `none` on a string cell (arithmetic on a
string column would raise `TypeError` in Python). -/
def cellNum : Cell → Option ℚ
  | .i n => some (n : ℚ)
  | .f q => some q
  | .s _ => none

/-- Column access `df['name']` on a frame. -/
def Frame.col (fr : Frame) (name : String) : List Cell :=
  match fr.columns.findIdx? (· == name) with
  | some j => fr.rows.filterMap (fun r => r[j]?)
  | none => []

/-- Read `df.iloc[0]['name']` as a numeric value. -/
def Frame.firstVal (fr : Frame) (name : String) : Option ℚ :=
  (fr.col name).head?.bind cellNum

/-- Read `df.iloc[-1]['name']` as a numeric value. -/
def Frame.lastVal (fr : Frame) (name : String) : Option ℚ :=
  (fr.col name).getLast?.bind cellNum

/-- First index of the maximum (`Series.idxmax`). -/
def idxmaxAux : List ℚ → Nat → Nat → ℚ → Nat
  | [], _, best, _ => best
  | x :: t, i, best, bv => if bv < x then idxmaxAux t (i + 1) i x else idxmaxAux t (i + 1) best bv

/-- First index of the maximum, `Series.idxmax`. -/
def idxmax : List ℚ → Option Nat
  | [] => none
  | x :: t => some (idxmaxAux t 1 0 x)

/-- First index of the minimum (`Series.idxmin`). -/
def idxminAux : List ℚ → Nat → Nat → ℚ → Nat
  | [], _, best, _ => best
  | x :: t, i, best, bv => if x < bv then idxminAux t (i + 1) i x else idxminAux t (i + 1) best bv

/-- First index of the minimum, `Series.idxmin`. -/
def idxmin : List ℚ → Option Nat
  | [] => none
  | x :: t => some (idxminAux t 1 0 x)

/-- The `Sector` name at a row index, used by the `df.loc[idx, 'Sector']`
lookups in `get_data_summary`. -/
def sectorNameAt (fr : Frame) (j : Option Nat) : String :=
  match j.bind (fun i => (fr.col "Sector")[i]?) with
  | some (.s v) => v
  | _ => ""

/-- The summary dictionary built by `get_data_summary` in `data.py`. -/
structure DataSummary where
  periods_analyzed : Nat
  quarters_analyzed : Nat
  sectors_analyzed : Nat
  scenarios_modeled : Nat
  latest_revenue_growth : ℚ
  latest_pat_growth : ℚ
  best_sector : String
  worst_sector : String
  total_weight_analyzed : ℚ
  data_updated : String

/-- Function `get_data_summary` from `data.py`. -/
def get_data_summary : DataSummary :=
  let five_year := get_five_year_data
  let quarterly := get_quarterly_data
  let sector := get_sector_data
  let scenarios := get_scenarios
  { periods_analyzed := five_year.rows.length
    quarters_analyzed := quarterly.rows.length
    sectors_analyzed := sector.rows.length
    scenarios_modeled := scenarios.length
    latest_revenue_growth := ((quarterly.lastVal "Revenue Growth (%)").getD 0)
    latest_pat_growth := ((quarterly.lastVal "PAT Growth (%)").getD 0)
    best_sector := sectorNameAt sector (idxmax ((sector.col "Profit Growth FY25 (%)").map cellQ))
    worst_sector := sectorNameAt sector (idxmin ((sector.col "Profit Growth FY25 (%)").map cellQ))
    total_weight_analyzed := ((sector.col "Weight in Nifty (%)").map cellQ).sum
    data_updated := "Feb 21, 2025" }

/-- Function `validate_data` from `data.py`: the `assert` chain inside the
`try`.  Each failed assertion returns `(False, "❌ Validation failed:
<assert message>")` via the `except AssertionError` branch; when every
check passes the function returns the success pair.  (The asserts on
column presence carry no message, so their failure string is the empty
`str(e)`.) -/
def validate_data : Bool × String :=
  if get_five_year_data.rows.length ≠ 5 then (false, "❌ Validation failed: Five-year data should have 5 rows")
  else if get_quarterly_data.rows.length ≠ 3 then (false, "❌ Validation failed: Quarterly data should have 3 rows")
  else if get_sector_data.rows.length ≠ 10 then (false, "❌ Validation failed: Sector data should have 10 sectors")
  else if get_downgrade_data.rows.length ≠ 6 then (false, "❌ Validation failed: Downgrade data should have 6 data points")
  else if get_scenarios.length ≠ 3 then (false, "❌ Validation failed: Should have 3 scenarios")
  else if "Revenue Growth (%)" ∉ get_five_year_data.columns then (false, "❌ Validation failed: ")
  else if "PAT Growth (%)" ∉ get_quarterly_data.columns then (false, "❌ Validation failed: ")
  else if "Weight in Nifty (%)" ∉ get_sector_data.columns then (false, "❌ Validation failed: ")
  else if "FY25 Profit Growth (%)" ∉ get_downgrade_data.columns then (false, "❌ Validation failed: ")
  else if ¬ (∀ c ∈ get_five_year_data.col "Revenue Growth (%)", ∀ q ∈ cellNum c, -100 < q) then
    (false, "❌ Validation failed: Growth rates should be > -100%")
  else if ¬ (∀ c ∈ get_five_year_data.col "Revenue Growth (%)", ∀ q ∈ cellNum c, q < 100) then
    (false, "❌ Validation failed: Growth rates should be < 100%")
  else if ¬ (∀ p ∈ get_scenarios, p.2.fy25_earnings.isSome ∧ p.2.fy25_pe.isSome ∧ 0 < p.2.probability) then
    (false, "❌ Validation failed: ")
  else (true, "✅ All data validated successfully")

/-- The dictionary returned by `calculate_key_metrics`.  Python floats
produced by `**` are embedded as reals; values copied straight from
the tables stay rational. -/
structure KeyMetrics where
  revenue_cagr : ℝ
  pat_cagr : ℝ
  current_rev_growth : ℚ
  current_pat_growth : ℚ
  revenue_trend : String
  profit_trend : String
  divergence_factor : ℝ
  nifty_current : ℚ
  pe_current : ℚ
  pe_fair_range : ℚ × ℚ

/-- The dictionary returned by the `except` branch of
`calculate_key_metrics`. -/
noncomputable def errorMetrics : KeyMetrics :=
  { revenue_cagr := 0, pat_cagr := 0
    current_rev_growth := 0, current_pat_growth := 0
    revenue_trend := "Unknown", profit_trend := "Unknown"
    divergence_factor := 0
    nifty_current := 0, pe_current := 0, pe_fair_range := (0, 0) }

/-- The body of the `try` block of `calculate_key_metrics`, once the
six table reads have succeeded.  `(end/start) ** (1/4)` is real
exponentiation; the guards `start > 0 and end > 0` are the source's. -/
noncomputable def metricsCore (fy2021_rev fy2025_rev fy2021_pat fy2025_pat
    current_rev current_pat : ℚ) : KeyMetrics :=
  let revenue_cagr : ℝ :=
    if 0 < fy2021_rev ∧ 0 < fy2025_rev then
      (((fy2025_rev : ℝ) / (fy2021_rev : ℝ)) ^ ((1 : ℝ) / 4) - 1) * 100
    else 0
  let pat_cagr : ℝ :=
    if 0 < fy2021_pat ∧ 0 < fy2025_pat then
      (((fy2025_pat : ℝ) / (fy2021_pat : ℝ)) ^ ((1 : ℝ) / 4) - 1) * 100
    else 0
  let divergence := pat_cagr - revenue_cagr
  { revenue_cagr := revenue_cagr
    pat_cagr := pat_cagr
    current_rev_growth := current_rev
    current_pat_growth := current_pat
    revenue_trend := if current_rev < 8 then "Decelerating" else "Stable"
    profit_trend := if 5 < divergence then "Margin Support" else "Balanced"
    divergence_factor := divergence
    nifty_current := 23500
    pe_current := 25.0
    pe_fair_range := (10, 12) }

/-- Body of `calculate_key_metrics` over arbitrary five-year and quarterly
frames (the source reads the two cached frames; the `iloc` reads are
the only statements in the `try` block that can raise, and a failure
lands in the `except` branch). -/
noncomputable def calculate_key_metrics_on (five_year quarterly : Frame) : KeyMetrics :=
  match five_year.firstVal "Revenue Growth (%)", five_year.lastVal "Revenue Growth (%)",
        five_year.firstVal "PAT Growth (%)", five_year.lastVal "PAT Growth (%)",
        quarterly.lastVal "Revenue Growth (%)", quarterly.lastVal "PAT Growth (%)" with
  | some a, some b, some c, some d, some e, some f => metricsCore a b c d e f
  | _, _, _, _, _, _ => errorMetrics

/-- Function `calculate_key_metrics` from `data.py`. -/
noncomputable def calculate_key_metrics : KeyMetrics :=
  calculate_key_metrics_on get_five_year_data get_quarterly_data

/-- A field needs quoting in `to_csv` when it contains a separator,
quote or newline (the csv module's minimal quoting). -/
def csvNeedsQuoting (s : String) : Bool :=
  s.data.any (fun c => c == ',' || c == '"' || c == '\n')

/-- Double any embedded quote, per the csv quoting convention. -/
def csvEscape : List Char → List Char
  | [] => []
  | '"' :: rest => '"' :: '"' :: csvEscape rest
  | c :: rest => c :: csvEscape rest

/-- Serialize one field, quoting when required. -/
def csvField (s : String) : String :=
  if csvNeedsQuoting s then "\"" ++ String.mk (csvEscape s.data) ++ "\"" else s

/-- Decimal string `±d.d` of the integer `m` of tenths. -/
def intTenths (m : ℤ) : String :=
  (if m < 0 then "-" else "") ++ toString (m.natAbs / 10) ++ "." ++ toString (m.natAbs % 10)

/-- How pandas prints a cell in `to_csv`.  Every float literal in the
four tables is an exact multiple of 1/10 whose shortest representation
has a single decimal digit, which pandas prints as `d.d`; on such a
value `(q * 10).num` is the integer of tenths. -/
def renderCell : Cell → String
  | .i n => toString n
  | .f q => intTenths (q * 10).num
  | .s v => v

/-- Serialization `df.to_csv(index=False)`: header line then one line per row,
comma-separated, `\n`-terminated, no index column. -/
def Frame.toCsv (fr : Frame) : String :=
  String.intercalate "," (fr.columns.map csvField) ++ "\n" ++
  String.join (fr.rows.map (fun r =>
    String.intercalate "," (r.map (fun c => csvField (renderCell c))) ++ "\n"))

/-- Function `export_to_csv` from `data.py`. -/
def export_to_csv (data_type : String) : String :=
  let data_map : List (String × Frame) :=
    [("five_year", get_five_year_data), ("quarterly", get_quarterly_data),
     ("sector", get_sector_data), ("downgrades", get_downgrade_data)]
  match data_map.lookup data_type with
  | some df => df.toCsv
  | none => ""

/-- Split a csv text into records of fields: one character at a time,
tracking the in-quotes state; `fld` and `acc` are reversed
accumulators. -/
def csvRecords : List Char → Bool → List Char → List String → List (List String) → List (List String)
  | [], _, fld, rec, acc =>
    if fld.isEmpty && rec.isEmpty then acc.reverse
    else ((String.mk fld.reverse :: rec).reverse :: acc).reverse
  | '"' :: '"' :: cs, true, fld, rec, acc => csvRecords cs true ('"' :: fld) rec acc
  | '"' :: cs, inQ, fld, rec, acc => csvRecords cs (!inQ) fld rec acc
  | ',' :: cs, false, fld, rec, acc => csvRecords cs false [] (String.mk fld.reverse :: rec) acc
  | '\n' :: cs, false, fld, rec, acc =>
    csvRecords cs false [] [] ((String.mk fld.reverse :: rec).reverse :: acc)
  | c :: cs, inQ, fld, rec, acc => csvRecords cs inQ (c :: fld) rec acc

/-- Numeric value of the decimal digits `cs`. -/
def digitsVal (cs : List Char) : ℕ :=
  cs.foldl (fun n c => 10 * n + (c.toNat - 48)) 0

/-- The rational `±m × 10⁻ᵉ`, built exactly the way a scientific
literal elaborates, so that reparsing a printed float is definitionally
the original literal. -/
def floatSci (neg : Bool) (m e : ℕ) : ℚ :=
  if neg then -(OfScientific.ofScientific m true e) else OfScientific.ofScientific m true e

/-- The integer `±digits`. -/
def intOfDigits (neg : Bool) (body : List Char) : ℤ :=
  if neg then -(digitsVal body : ℤ) else (digitsVal body : ℤ)

/-- Classify a field the way `read_csv` infers dtypes on these tables:
an optional sign and digits is an integer, digits-dot-digits a float,
anything else stays a string. -/
def parseNum (neg : Bool) (body : List Char) (orig : String) : Cell :=
  if (!body.isEmpty) && body.all Char.isDigit then
    .i (intOfDigits neg body)
  else
    let ip := body.takeWhile (fun c => c ≠ '.')
    let rest := body.dropWhile (fun c => c ≠ '.')
    match rest with
    | '.' :: fp =>
      if (!ip.isEmpty) && ip.all Char.isDigit && (!fp.isEmpty) && fp.all Char.isDigit then
        .f (floatSci neg (digitsVal ip * 10 ^ fp.length + digitsVal fp) fp.length)
      else .s orig
    | _ => .s orig

/-- Parse one data field back into a typed cell. -/
def parseCell (s : String) : Cell :=
  match s.data with
  | '-' :: body => parseNum true body s
  | body => parseNum false body s

/-- Parse a csv text: first record is the header, the rest are typed
data rows (`pd.read_csv` on a `StringIO` of the text). -/
def parseCsv (csv : String) : Option (List String × List (List Cell)) :=
  match csvRecords csv.data false [] [] [] with
  | [] => none
  | header :: dataRows => some (header, dataRows.map (fun r => r.map parseCell))











/-- A five-year frame whose FY2021 revenue and PAT growth figures are
non-positive, exercising the CAGR guard. -/
def nonposStartFrame : Frame :=
  Frame.ofCols
    [("Revenue Growth (%)", [.f 0, .f 6.9]),
     ("PAT Growth (%)", [.f (-2.5), .f 4.6])]

/-- A scenario dictionary missing the `fy25_earnings` key. -/
def brokenScenario : ScenarioData :=
  { description := "Broken"
    fy25_earnings := none, fy26_earnings := some 5.0, fy27_earnings := some 7.5
    fy25_pe := some 23.0, fy26_pe := some 22.0, fy27_pe := some 21.5
    color := "#000000", probability := 0.25 }

/-- A scenario set whose second entry raises a `KeyError`. -/
def mixedScenarios : List (String × ScenarioData) :=
  [("Base Case (50%)",
    { description := "Margin Resilience, Slow Revenue"
      fy25_earnings := some 5.5, fy26_earnings := some 11.0, fy27_earnings := some 12.5
      fy25_pe := some 25.0, fy26_pe := some 24.5, fy27_pe := some 24.0
      color := "#FFA500", probability := 0.50 }),
   ("Broken", brokenScenario)]


/-- Rendering a float cell whose value is `m` tenths prints `±d.d`. -/
theorem renderCell_f_eq (q : ℚ) (m : ℤ) (h : q * 10 = (m : ℚ)) :
    renderCell (.f q) = intTenths m := by
  simp only [renderCell, h, Rat.num_intCast]

/-- Evaluated `to_csv(index=False)` of the five-year table. -/
theorem toCsv_five_year : (get_five_year_data).toCsv = "Fiscal Year,Revenue Growth (%),EBITDA Growth (%),PAT Growth (%),EBITDA Margin (%),PAT Margin (%)\nFY2021,10.5,11.2,8.3,32.1,9.8\nFY2022,15.4,22.8,25.7,33.5,10.4\nFY2023,13.8,18.5,22.1,33.2,10.6\nFY2024,10.7,14.3,16.8,33.0,10.5\nFY2025 YTD,6.9,2.6,4.6,33.1,10.7\n" := by
  have hc : (get_five_year_data).columns = ["Fiscal Year", "Revenue Growth (%)", "EBITDA Growth (%)", "PAT Growth (%)", "EBITDA Margin (%)", "PAT Margin (%)"] := rfl
  have hr : (get_five_year_data).rows =
      [[Cell.s "FY2021", Cell.f 10.5, Cell.f 11.2, Cell.f 8.3, Cell.f 32.1, Cell.f 9.8],
       [Cell.s "FY2022", Cell.f 15.4, Cell.f 22.8, Cell.f 25.7, Cell.f 33.5, Cell.f 10.4],
       [Cell.s "FY2023", Cell.f 13.8, Cell.f 18.5, Cell.f 22.1, Cell.f 33.2, Cell.f 10.6],
       [Cell.s "FY2024", Cell.f 10.7, Cell.f 14.3, Cell.f 16.8, Cell.f 33.0, Cell.f 10.5],
       [Cell.s "FY2025 YTD", Cell.f 6.9, Cell.f 2.6, Cell.f 4.6, Cell.f 33.1, Cell.f 10.7]] := rfl
  rw [Frame.toCsv, hc, hr]
  simp only [List.map_cons, List.map_nil,
    renderCell_f_eq 10.5 105 (by norm_num),
    renderCell_f_eq 15.4 154 (by norm_num),
    renderCell_f_eq 13.8 138 (by norm_num),
    renderCell_f_eq 10.7 107 (by norm_num),
    renderCell_f_eq 6.9 69 (by norm_num),
    renderCell_f_eq 11.2 112 (by norm_num),
    renderCell_f_eq 22.8 228 (by norm_num),
    renderCell_f_eq 18.5 185 (by norm_num),
    renderCell_f_eq 14.3 143 (by norm_num),
    renderCell_f_eq 2.6 26 (by norm_num),
    renderCell_f_eq 8.3 83 (by norm_num),
    renderCell_f_eq 25.7 257 (by norm_num),
    renderCell_f_eq 22.1 221 (by norm_num),
    renderCell_f_eq 16.8 168 (by norm_num),
    renderCell_f_eq 4.6 46 (by norm_num),
    renderCell_f_eq 32.1 321 (by norm_num),
    renderCell_f_eq 33.5 335 (by norm_num),
    renderCell_f_eq 33.2 332 (by norm_num),
    renderCell_f_eq 33.0 330 (by norm_num),
    renderCell_f_eq 33.1 331 (by norm_num),
    renderCell_f_eq 9.8 98 (by norm_num),
    renderCell_f_eq 10.4 104 (by norm_num),
    renderCell_f_eq 10.6 106 (by norm_num)]
  rfl

/-- Evaluated `to_csv(index=False)` of the quarterly table. -/
theorem toCsv_quarterly : (get_quarterly_data).toCsv = "Quarter,Revenue Growth (%),EBITDA Growth (%),PAT Growth (%)\nQ1FY25,9.6,9.4,0.8\nQ2FY25,6.6,1.3,-1.0\nQ3FY25,4.5,6.9,9.5\n" := by
  have hc : (get_quarterly_data).columns = ["Quarter", "Revenue Growth (%)", "EBITDA Growth (%)", "PAT Growth (%)"] := rfl
  have hr : (get_quarterly_data).rows =
      [[Cell.s "Q1FY25", Cell.f 9.6, Cell.f 9.4, Cell.f 0.8],
       [Cell.s "Q2FY25", Cell.f 6.6, Cell.f 1.3, Cell.f (-1.0)],
       [Cell.s "Q3FY25", Cell.f 4.5, Cell.f 6.9, Cell.f 9.5]] := rfl
  rw [Frame.toCsv, hc, hr]
  simp only [List.map_cons, List.map_nil,
    renderCell_f_eq 9.6 96 (by norm_num),
    renderCell_f_eq 6.6 66 (by norm_num),
    renderCell_f_eq 4.5 45 (by norm_num),
    renderCell_f_eq 9.4 94 (by norm_num),
    renderCell_f_eq 1.3 13 (by norm_num),
    renderCell_f_eq 6.9 69 (by norm_num),
    renderCell_f_eq 0.8 8 (by norm_num),
    renderCell_f_eq (-1.0) (-10) (by norm_num),
    renderCell_f_eq 9.5 95 (by norm_num)]
  rfl

/-- Evaluated `to_csv(index=False)` of the sector table. -/
theorem toCsv_sector : (get_sector_data).toCsv = "Sector,Revenue Growth FY25 (%),Profit Growth FY25 (%),Weight in Nifty (%),Status\nFinancials,12.3,17.3,35,🟡 SLOWING\nEnergy,1.4,-35.4,30,🔴 CRISIS\nIT,7.0,8.7,9,🟢 STABILIZING\nIndustrials,10.6,25.7,5,🟢 STRONG\nMaterials,1.7,-1.4,11,⚠️ MIXED\nConsumer Disc.,10.5,6.6,9,⚠️ WEAKENING\nHealthcare,7.6,32.9,3,🟢 STRONG\nConsumer Staples,10.6,6.1,3,⚠️ MIXED\nUtilities,7.5,-6.9,3,⚠️ DECLINING\nTelecom,8.0,95.9,2,🟢 EXCEPTIONAL\n" := by
  have hc : (get_sector_data).columns = ["Sector", "Revenue Growth FY25 (%)", "Profit Growth FY25 (%)", "Weight in Nifty (%)", "Status"] := rfl
  have hr : (get_sector_data).rows =
      [[Cell.s "Financials", Cell.f 12.3, Cell.f 17.3, Cell.i 35, Cell.s "🟡 SLOWING"],
       [Cell.s "Energy", Cell.f 1.4, Cell.f (-35.4), Cell.i 30, Cell.s "🔴 CRISIS"],
       [Cell.s "IT", Cell.f 7.0, Cell.f 8.7, Cell.i 9, Cell.s "🟢 STABILIZING"],
       [Cell.s "Industrials", Cell.f 10.6, Cell.f 25.7, Cell.i 5, Cell.s "🟢 STRONG"],
       [Cell.s "Materials", Cell.f 1.7, Cell.f (-1.4), Cell.i 11, Cell.s "⚠️ MIXED"],
       [Cell.s "Consumer Disc.", Cell.f 10.5, Cell.f 6.6, Cell.i 9, Cell.s "⚠️ WEAKENING"],
       [Cell.s "Healthcare", Cell.f 7.6, Cell.f 32.9, Cell.i 3, Cell.s "🟢 STRONG"],
       [Cell.s "Consumer Staples", Cell.f 10.6, Cell.f 6.1, Cell.i 3, Cell.s "⚠️ MIXED"],
       [Cell.s "Utilities", Cell.f 7.5, Cell.f (-6.9), Cell.i 3, Cell.s "⚠️ DECLINING"],
       [Cell.s "Telecom", Cell.f 8.0, Cell.f 95.9, Cell.i 2, Cell.s "🟢 EXCEPTIONAL"]] := rfl
  rw [Frame.toCsv, hc, hr]
  simp only [List.map_cons, List.map_nil,
    renderCell_f_eq 12.3 123 (by norm_num),
    renderCell_f_eq 1.4 14 (by norm_num),
    renderCell_f_eq 7.0 70 (by norm_num),
    renderCell_f_eq 10.6 106 (by norm_num),
    renderCell_f_eq 1.7 17 (by norm_num),
    renderCell_f_eq 10.5 105 (by norm_num),
    renderCell_f_eq 7.6 76 (by norm_num),
    renderCell_f_eq 7.5 75 (by norm_num),
    renderCell_f_eq 8.0 80 (by norm_num),
    renderCell_f_eq 17.3 173 (by norm_num),
    renderCell_f_eq (-35.4) (-354) (by norm_num),
    renderCell_f_eq 8.7 87 (by norm_num),
    renderCell_f_eq 25.7 257 (by norm_num),
    renderCell_f_eq (-1.4) (-14) (by norm_num),
    renderCell_f_eq 6.6 66 (by norm_num),
    renderCell_f_eq 32.9 329 (by norm_num),
    renderCell_f_eq 6.1 61 (by norm_num),
    renderCell_f_eq (-6.9) (-69) (by norm_num),
    renderCell_f_eq 95.9 959 (by norm_num)]
  rfl

/-- Evaluated `to_csv(index=False)` of the downgrades table. -/
theorem toCsv_downgrades : (get_downgrade_data).toCsv = "Date,Period,FY25 Profit Growth (%)\n\"Sep 30, 2024\",Sep-24,9.8\n\"Oct 31, 2024\",Oct-24,8.2\n\"Nov 30, 2024\",Nov-24,5.8\n\"Dec 31, 2024\",Dec-24,3.2\n\"Jan 31, 2025\",Jan-25,4.9\n\"Feb 21, 2025\",Feb-25,3.2\n" := by
  have hc : (get_downgrade_data).columns = ["Date", "Period", "FY25 Profit Growth (%)"] := rfl
  have hr : (get_downgrade_data).rows =
      [[Cell.s "Sep 30, 2024", Cell.s "Sep-24", Cell.f 9.8],
       [Cell.s "Oct 31, 2024", Cell.s "Oct-24", Cell.f 8.2],
       [Cell.s "Nov 30, 2024", Cell.s "Nov-24", Cell.f 5.8],
       [Cell.s "Dec 31, 2024", Cell.s "Dec-24", Cell.f 3.2],
       [Cell.s "Jan 31, 2025", Cell.s "Jan-25", Cell.f 4.9],
       [Cell.s "Feb 21, 2025", Cell.s "Feb-25", Cell.f 3.2]] := rfl
  rw [Frame.toCsv, hc, hr]
  simp only [List.map_cons, List.map_nil,
    renderCell_f_eq 9.8 98 (by norm_num),
    renderCell_f_eq 8.2 82 (by norm_num),
    renderCell_f_eq 5.8 58 (by norm_num),
    renderCell_f_eq 3.2 32 (by norm_num),
    renderCell_f_eq 4.9 49 (by norm_num)]
  rfl


/-- Lemma: `calculate_nifty_levels` maps the per-scenario computation over the
scenario list, keeping keys. -/
theorem calc_nifty_eq_map (s : List (String × ScenarioData)) :
    calculate_nifty_levels s = s.map (fun p => (p.1, nifty_levels_for p.2)) := by
  induction s with
  | nil => rfl
  | cons p t ih =>
    obtain ⟨n, d⟩ := p
    simp [calculate_nifty_levels, ih]

/-- Both branches of the per-scenario computation produce three levels. -/
theorem nifty_levels_for_length (d : ScenarioData) : (nifty_levels_for d).length = 3 := by
  obtain ⟨de, f1, f2, f3, f4, f5, f6, co, pr⟩ := d
  cases f1 <;> cases f2 <;> cases f3 <;> cases f4 <;> cases f5 <;> cases f6 <;> rfl

/-- A scenario with a missing key lands in the `except` branch. -/
theorem nifty_levels_for_missing (d : ScenarioData) (h : scenario_missing_key d = true) :
    nifty_levels_for d = [0, 0, 0] := by
  obtain ⟨de, f1, f2, f3, f4, f5, f6, co, pr⟩ := d
  cases f1 <;> cases f2 <;> cases f3 <;> cases f4 <;> cases f5 <;> cases f6 <;>
    first
    | rfl
    | simp [scenario_missing_key] at h

/-- The exact Base Case levels (in thousands). -/
theorem lookup_base_exact :
    (calculate_nifty_levels get_scenarios).lookup "Base Case (50%)"
      = some [56.70625, 61.68505875, 67.9794525] := by
  simp [calculate_nifty_levels, get_scenarios, nifty_levels_for, List.lookup, BASE_EPS_FY24]
  norm_num

/-- The sector weight column, numerically. -/
theorem sector_weight_col_eq :
    (get_sector_data.col "Weight in Nifty (%)").map cellQ
      = [((35 : ℤ) : ℚ), ((30 : ℤ) : ℚ), ((9 : ℤ) : ℚ), ((5 : ℤ) : ℚ), ((11 : ℤ) : ℚ),
         ((9 : ℤ) : ℚ), ((3 : ℤ) : ℚ), ((3 : ℤ) : ℚ), ((3 : ℤ) : ℚ), ((2 : ℤ) : ℚ)] := rfl

/-- The five-year revenue growth column. -/
theorem rev_col_eq :
    get_five_year_data.col "Revenue Growth (%)"
      = [.f 10.5, .f 15.4, .f 13.8, .f 10.7, .f 6.9] := rfl

/-- Every five-year revenue growth figure exceeds -100. -/
theorem rev_col_gt :
    ∀ c ∈ get_five_year_data.col "Revenue Growth (%)", ∀ q ∈ cellNum c, -100 < q := by
  rw [rev_col_eq]
  intro c hc
  fin_cases hc
  all_goals intro q hq
  all_goals simp only [cellNum, Option.mem_def, Option.some.injEq] at hq
  all_goals subst hq
  all_goals norm_num

/-- Every five-year revenue growth figure is below 100. -/
theorem rev_col_lt :
    ∀ c ∈ get_five_year_data.col "Revenue Growth (%)", ∀ q ∈ cellNum c, q < 100 := by
  rw [rev_col_eq]
  intro c hc
  fin_cases hc
  all_goals intro q hq
  all_goals simp only [cellNum, Option.mem_def, Option.some.injEq] at hq
  all_goals subst hq
  all_goals norm_num

/-- Every hard-coded scenario carries the checked keys and a positive
probability. -/
theorem scen_checks :
    ∀ p ∈ get_scenarios, p.2.fy25_earnings.isSome ∧ p.2.fy25_pe.isSome ∧ 0 < p.2.probability := by
  intro p hp
  simp only [get_scenarios, List.mem_cons, List.not_mem_nil, or_false] at hp
  rcases hp with h | h | h <;> subst h <;> exact ⟨rfl, rfl, by norm_num⟩

/-- Lemma: `calculate_key_metrics` reads exactly the corner values of the
hard-coded tables. -/
theorem ckm_eq : calculate_key_metrics = metricsCore 10.5 6.9 8.3 4.6 4.5 9.5 := rfl

/-- A non-positive start value forces the revenue CAGR branch to 0. -/
theorem metricsCore_revenue_cagr_nonpos (a b c d e f : ℚ) (ha : a ≤ 0) :
    (metricsCore a b c d e f).revenue_cagr = 0 := by
  simp only [metricsCore]
  rw [if_neg (fun h => absurd h.1 (not_lt.mpr ha))]

/-- A non-positive start value forces the PAT CAGR branch to 0. -/
theorem metricsCore_pat_cagr_nonpos (a b c d e f : ℚ) (hc : c ≤ 0) :
    (metricsCore a b c d e f).pat_cagr = 0 := by
  simp only [metricsCore]
  rw [if_neg (fun h => absurd h.1 (not_lt.mpr hc))]

/-- C1: for every scenario dictionary in the input of
`calculate_nifty_levels` that carries the three growth and three P/E
keys `g1 g2 g3 p1 p2 p3`, the returned levels for that scenario are
`eps_t * p_t / 1000` with `eps_0 = BASE_EPS_FY24 = 2150` and
`eps_t = eps_(t-1) * (1 + g_t/100)`. -/
theorem calculate_nifty_levels_compounding
    (s : List (String × ScenarioData)) (name : String) (d : ScenarioData)
    (g1 g2 g3 p1 p2 p3 : ℚ)
    (hmem : (name, d) ∈ s)
    (h1 : d.fy25_earnings = some g1) (h2 : d.fy26_earnings = some g2)
    (h3 : d.fy27_earnings = some g3) (h4 : d.fy25_pe = some p1)
    (h5 : d.fy26_pe = some p2) (h6 : d.fy27_pe = some p3) :
    (name,
      [BASE_EPS_FY24 * (1 + g1 / 100) * p1 / 1000,
       BASE_EPS_FY24 * (1 + g1 / 100) * (1 + g2 / 100) * p2 / 1000,
       BASE_EPS_FY24 * (1 + g1 / 100) * (1 + g2 / 100) * (1 + g3 / 100) * p3 / 1000])
      ∈ calculate_nifty_levels s := by
  have hd : nifty_levels_for d =
      [BASE_EPS_FY24 * (1 + g1 / 100) * p1 / 1000,
       BASE_EPS_FY24 * (1 + g1 / 100) * (1 + g2 / 100) * p2 / 1000,
       BASE_EPS_FY24 * (1 + g1 / 100) * (1 + g2 / 100) * (1 + g3 / 100) * p3 / 1000] := by
    simp only [nifty_levels_for, h1, h2, h3, h4, h5, h6]
  rw [calc_nifty_eq_map, ← hd]
  exact List.mem_map_of_mem _ hmem

/-- Witness for C1 at the hard-coded Base Case scenario. -/
theorem calculate_nifty_levels_compounding_witness :
    ("Base Case (50%)",
      [BASE_EPS_FY24 * (1 + 5.5 / 100) * 25.0 / 1000,
       BASE_EPS_FY24 * (1 + 5.5 / 100) * (1 + 11.0 / 100) * 24.5 / 1000,
       BASE_EPS_FY24 * (1 + 5.5 / 100) * (1 + 11.0 / 100) * (1 + 12.5 / 100) * 24.0 / 1000])
      ∈ calculate_nifty_levels get_scenarios :=
  calculate_nifty_levels_compounding get_scenarios "Base Case (50%)"
    { description := "Margin Resilience, Slow Revenue"
      fy25_earnings := some 5.5, fy26_earnings := some 11.0, fy27_earnings := some 12.5
      fy25_pe := some 25.0, fy26_pe := some 24.5, fy27_pe := some 24.0
      color := "#FFA500", probability := 0.50 }
    5.5 11.0 12.5 25.0 24.5 24.0 (by simp [get_scenarios]) rfl rfl rfl rfl rfl rfl

/-- C2 counterexample: on the hard-coded Base Case, the exact stored
levels are 56.70625, 61.68505875 and 67.9794525 (thousands), so the
claimed FY26 figure 61685.1 (stored 61.6851) and FY27 figure 67979.5
(stored 67.9795) are not the computed values. -/
theorem base_case_levels_ne_claimed :
    (calculate_nifty_levels get_scenarios).lookup "Base Case (50%)"
      ≠ some [56.70625, 61.6851, 67.9795] := by
  rw [lookup_base_exact]
  intro heq
  simp only [Option.some.injEq, List.cons.injEq] at heq
  have h2 := heq.2.1
  norm_num at h2

/-- C2 amended: the Base Case levels are exactly 56706.25, 61685.05875
and 67979.4525 (stored divided by 1000), from the intermediate EPS
values 2268.25, 2517.7575 and 2832.4771875. -/
theorem base_case_levels_exact :
    (calculate_nifty_levels get_scenarios).lookup "Base Case (50%)"
      = some [56.70625, 61.68505875, 67.9794525] ∧
    BASE_EPS_FY24 * (1 + 5.5 / 100) = 2268.25 ∧
    BASE_EPS_FY24 * (1 + 5.5 / 100) * (1 + 11.0 / 100) = 2517.7575 ∧
    BASE_EPS_FY24 * (1 + 5.5 / 100) * (1 + 11.0 / 100) * (1 + 12.5 / 100) = 2832.4771875 :=
  ⟨lookup_base_exact, by norm_num [BASE_EPS_FY24], by norm_num [BASE_EPS_FY24],
    by norm_num [BASE_EPS_FY24]⟩

/-- C3 counterexample: the sector weights do not sum to 100, and
`get_data_summary` does not report 100. -/
theorem sector_weights_sum_ne_100 :
    ((get_sector_data.col "Weight in Nifty (%)").map cellQ).sum ≠ 100 ∧
    get_data_summary.total_weight_analyzed ≠ 100 := by
  have h : ((get_sector_data.col "Weight in Nifty (%)").map cellQ).sum = 110 := by
    rw [sector_weight_col_eq]; norm_num
  constructor
  · rw [h]; norm_num
  · show ((get_sector_data.col "Weight in Nifty (%)").map cellQ).sum ≠ 100
    rw [h]; norm_num

/-- C3 amended: the hard-coded 'Weight in Nifty (%)' column sums to
110, and `total_weight_analyzed` is 110. -/
theorem sector_weights_sum_110 :
    ((get_sector_data.col "Weight in Nifty (%)").map cellQ).sum = 110 ∧
    get_data_summary.total_weight_analyzed = 110 := by
  have h : ((get_sector_data.col "Weight in Nifty (%)").map cellQ).sum = 110 := by
    rw [sector_weight_col_eq]; norm_num
  exact ⟨h, h⟩

/-- C4: whenever the FY2021 start value of a CAGR computation is ≤ 0,
the corresponding CAGR field of the returned metrics record is 0 (the
root is never taken on a non-positive base), for any input frames. -/
theorem cagr_zero_on_nonpos_start (fy qr : Frame) (a c : ℚ)
    (hr : fy.firstVal "Revenue Growth (%)" = some a)
    (hp : fy.firstVal "PAT Growth (%)" = some c) :
    (a ≤ 0 → (calculate_key_metrics_on fy qr).revenue_cagr = 0) ∧
    (c ≤ 0 → (calculate_key_metrics_on fy qr).pat_cagr = 0) := by
  unfold calculate_key_metrics_on
  rw [hr, hp]
  rcases hb : fy.lastVal "Revenue Growth (%)" with _ | b <;>
    rcases hd : fy.lastVal "PAT Growth (%)" with _ | d <;>
      rcases he : qr.lastVal "Revenue Growth (%)" with _ | e <;>
        rcases hf : qr.lastVal "PAT Growth (%)" with _ | f
  all_goals constructor
  all_goals intro h
  all_goals first
    | rfl
    | exact metricsCore_revenue_cagr_nonpos _ _ _ _ _ _ h
    | exact metricsCore_pat_cagr_nonpos _ _ _ _ _ _ h

/-- Witness for C4 on a frame with start values 0 and -2.5. -/
theorem cagr_zero_on_nonpos_start_witness :
    (calculate_key_metrics_on nonposStartFrame get_quarterly_data).revenue_cagr = 0 ∧
    (calculate_key_metrics_on nonposStartFrame get_quarterly_data).pat_cagr = 0 := by
  have h := cagr_zero_on_nonpos_start nonposStartFrame get_quarterly_data 0 (-2.5) rfl rfl
  exact ⟨h.1 (by norm_num), h.2 (by norm_num)⟩

/-- C5: the divergence factor is the PAT CAGR minus the revenue CAGR,
each by the standard fourth-root formula on the first and last rows of
the five-year table (8.3 → 4.6 for PAT, 10.5 → 6.9 for revenue). -/
theorem divergence_factor_eq :
    calculate_key_metrics.divergence_factor =
      (((4.6 : ℝ) / 8.3) ^ ((1 : ℝ) / 4) - 1) * 100 -
      (((6.9 : ℝ) / 10.5) ^ ((1 : ℝ) / 4) - 1) * 100 := by
  rw [ckm_eq]
  simp only [metricsCore]
  rw [if_pos (⟨by norm_num, by norm_num⟩ : (0 : ℚ) < 8.3 ∧ (0 : ℚ) < 4.6),
    if_pos (⟨by norm_num, by norm_num⟩ : (0 : ℚ) < 10.5 ∧ (0 : ℚ) < 6.9)]
  norm_num

/-- C6: the three scenario probabilities sum to 1, as do the
`SCENARIO_WEIGHTS` of `config.py`. -/
theorem scenario_probabilities_sum_one :
    (get_scenarios.map (fun p => p.2.probability)).sum = 1 ∧
    (Config.SCENARIO_WEIGHTS.map Prod.snd).sum = 1 := by
  constructor
  · simp only [get_scenarios, List.map_cons, List.map_nil, List.sum_cons, List.sum_nil]
    norm_num
  · simp only [Config.SCENARIO_WEIGHTS, List.map_cons, List.map_nil, List.sum_cons,
      List.sum_nil]
    norm_num

/-- C7: for each of the four known dataset names, `export_to_csv`
produces a comma-separated text with a header row and no index column
that parses back to exactly the in-memory column names (in order) and
typed cell values (hence the same row count). -/
theorem export_csv_roundtrip :
    parseCsv (export_to_csv "five_year")
      = some (get_five_year_data.columns, get_five_year_data.rows) ∧
    parseCsv (export_to_csv "quarterly")
      = some (get_quarterly_data.columns, get_quarterly_data.rows) ∧
    parseCsv (export_to_csv "sector")
      = some (get_sector_data.columns, get_sector_data.rows) ∧
    parseCsv (export_to_csv "downgrades")
      = some (get_downgrade_data.columns, get_downgrade_data.rows) := by
  refine ⟨?_, ?_, ?_, ?_⟩
  · rw [show export_to_csv "five_year" = get_five_year_data.toCsv from rfl, toCsv_five_year]
    rfl
  · rw [show export_to_csv "quarterly" = get_quarterly_data.toCsv from rfl, toCsv_quarterly]
    rfl
  · rw [show export_to_csv "sector" = get_sector_data.toCsv from rfl, toCsv_sector]
    rfl
  · rw [show export_to_csv "downgrades" = get_downgrade_data.toCsv from rfl, toCsv_downgrades]
    rfl

/-- C8: any dataset name other than the four known ones exports as the
empty string. -/
theorem export_unknown_empty (s : String)
    (h1 : s ≠ "five_year") (h2 : s ≠ "quarterly") (h3 : s ≠ "sector")
    (h4 : s ≠ "downgrades") :
    export_to_csv s = "" := by
  have e1 : (s == "five_year") = false := beq_eq_false_iff_ne.mpr h1
  have e2 : (s == "quarterly") = false := beq_eq_false_iff_ne.mpr h2
  have e3 : (s == "sector") = false := beq_eq_false_iff_ne.mpr h3
  have e4 : (s == "downgrades") = false := beq_eq_false_iff_ne.mpr h4
  simp [export_to_csv, List.lookup, e1, e2, e3, e4]

/-- Witness for C8 at the unknown name "metrics". -/
theorem export_unknown_empty_witness : export_to_csv "metrics" = "" :=
  export_unknown_empty "metrics" (by decide) (by decide) (by decide) (by decide)

/-- C9: `calculate_nifty_levels` keeps exactly the input keys in order,
maps every scenario to three numbers, computes each entry from that
scenario's dictionary alone, and maps any scenario missing a required
key to `[0, 0, 0]`. -/
theorem calculate_nifty_levels_structure (s : List (String × ScenarioData)) :
    (calculate_nifty_levels s).map Prod.fst = s.map Prod.fst ∧
    (∀ p ∈ calculate_nifty_levels s, p.2.length = 3) ∧
    (∀ i : ℕ, (calculate_nifty_levels s)[i]?
      = s[i]?.map (fun p => (p.1, nifty_levels_for p.2))) ∧
    (∀ i : ℕ, ∀ p : String × ScenarioData, s[i]? = some p →
      scenario_missing_key p.2 = true →
      (calculate_nifty_levels s)[i]? = some (p.1, [0, 0, 0])) := by
  refine ⟨?_, ?_, ?_, ?_⟩
  · rw [calc_nifty_eq_map, List.map_map]
    rfl
  · intro p hp
    rw [calc_nifty_eq_map] at hp
    obtain ⟨q, hq, rfl⟩ := List.mem_map.mp hp
    exact nifty_levels_for_length q.2
  · intro i
    rw [calc_nifty_eq_map, List.getElem?_map]
  · intro i p hp hmiss
    rw [calc_nifty_eq_map, List.getElem?_map, hp]
    simp [nifty_levels_for_missing p.2 hmiss]

/-- Witness for C9: a scenario set whose second entry lacks
`fy25_earnings` yields `[0, 0, 0]` exactly there. -/
theorem calculate_nifty_levels_structure_witness :
    (calculate_nifty_levels mixedScenarios)[1]? = some ("Broken", [0, 0, 0]) :=
  (calculate_nifty_levels_structure mixedScenarios).2.2.2 1 ("Broken", brokenScenario) rfl rfl

/-- C10: `validate_data` on the hard-coded datasets returns the success
pair — its checks cover shapes, columns, revenue bounds and scenario
keys, and pass even though the sector weights do not sum to 100. -/
theorem validate_data_passes :
    validate_data = (true, "✅ All data validated successfully") ∧
    ((get_sector_data.col "Weight in Nifty (%)").map cellQ).sum ≠ 100 := by
  constructor
  · unfold validate_data
    rw [if_neg (by decide), if_neg (by decide), if_neg (by decide), if_neg (by decide),
      if_neg (by decide), if_neg (by decide), if_neg (by decide), if_neg (by decide),
      if_neg (by decide), if_neg (not_not_intro rev_col_gt), if_neg (not_not_intro rev_col_lt),
      if_neg (not_not_intro scen_checks)]
  · rw [sector_weight_col_eq]
    norm_num
